import Mathlib

/-!
Shallow embedding of the JacareFinder core: the recorder state machine
(`src/components/AudioRecorder.tsx`), the search service
(`src/services/geminiService.ts`) and the app-level search orchestration,
ID normalization and favorites store (`src/types.ts`, which also carries
the `App` component source).  External collaborators — the browser JSON
parser, `crypto.randomUUID`, the remote generative-model call — are
modelled as explicit parameters/oracles; everything written by the
repository itself is translated directly from the source.
-/

namespace JacareFinder

/-- `Song.matchType` is one of three fixed categories (`src/types.ts`). -/
inductive MatchType where
  | texto
  | melodia
  | contexto
deriving DecidableEq, Repr

/-- The `Song` record of `src/types.ts`.  `confidence` is a JS number used
as an integral percentage; `description` is optional. -/
structure Song where
  id : String
  titulo : String
  artista : String
  matchType : MatchType
  confidence : Int
  description : Option String
deriving DecidableEq, Repr

/-- The `SearchState` record of `src/types.ts`: loading flag, optional
error message, list of results. -/
structure SearchState where
  isLoading : Bool
  error : Option String
  results : List Song
deriving DecidableEq, Repr

/-- The `RecorderStatus` enum of `src/types.ts`. -/
inductive RecorderStatus where
  | idle
  | recording
  | finished
deriving DecidableEq, Repr

/-- State of the `AudioRecorder` component: the `status` and `timer`
React state, whether the one-second interval is currently installed
(`timerIntervalRef` non-null and not yet cleared), the accumulated blob
chunks (`chunksRef`, blobs abstracted to strings), and whether
`mediaRecorderRef` holds a recorder (set on a successful `start`, never
nulled). -/
structure RecorderState where
  status : RecorderStatus
  timer : Nat
  timerActive : Bool
  chunks : List String
  hasRecorder : Bool
deriving DecidableEq, Repr

/-- Initial component state: `useState(RecorderStatus.IDLE)`,
`useState(0)`, refs null/empty. -/
def initialRecorder : RecorderState :=
  { status := .idle, timer := 0, timerActive := false, chunks := [], hasRecorder := false }

/-- `startRecording` from `AudioRecorder.tsx`.  `granted` models the
outcome of `getUserMedia`: on grant the component stores the recorder,
clears the chunks, sets status to RECORDING, resets the timer to 0 and
installs the one-second interval; on denial it only alerts, leaving all
state unchanged. -/
def startRecording (granted : Bool) (s : RecorderState) : RecorderState :=
  if granted then
    { status := .recording, timer := 0, timerActive := true, chunks := [], hasRecorder := true }
  else s

/-- `stopRecording` from `AudioRecorder.tsx`: guarded by
`mediaRecorderRef.current && status === RecorderStatus.RECORDING`; when
the guard holds it stops the recorder, sets status to FINISHED and clears
the interval; otherwise it does nothing. -/
def stopRecording (s : RecorderState) : RecorderState :=
  if s.hasRecorder = true ∧ s.status = .recording then
    { s with status := .finished, timerActive := false }
  else s

/-- `clearRecording` from `AudioRecorder.tsx`: unconditionally sets
status to IDLE, resets the timer to 0 and empties the chunks (and fires
the `onClear` callback).  Note it does not touch the interval. -/
def clearRecording (s : RecorderState) : RecorderState :=
  { s with status := .idle, timer := 0, chunks := [] }

/-- One firing of the interval callback `setTimer(prev => prev + 1)`. -/
def tickTimer (s : RecorderState) : RecorderState :=
  { s with timer := s.timer + 1 }

/-- The three recorder operations exposed by the component's buttons. -/
inductive RecorderOp where
  | start
  | stop
  | reset
deriving DecidableEq, Repr

/-- The recorder step function: which source handler each operation
invokes (`start` shown with microphone permission granted). -/
def recorderStep : RecorderOp → RecorderState → RecorderState
  | .start, s => startRecording true s
  | .stop, s => stopRecording s
  | .reset, s => clearRecording s

/-- UI-reachable events of the component: each button handler can only
fire while the component renders that button (`start` only in IDLE,
`stop` only in RECORDING, the discard/`reset` button only in FINISHED),
and the interval callback only fires while the interval is installed. -/
inductive UIStep : RecorderState → RecorderState → Prop where
  | start (s : RecorderState) (h : s.status = .idle) :
      UIStep s (startRecording true s)
  | startDenied (s : RecorderState) (h : s.status = .idle) :
      UIStep s (startRecording false s)
  | stop (s : RecorderState) (h : s.status = .recording) :
      UIStep s (stopRecording s)
  | reset (s : RecorderState) (h : s.status = .finished) :
      UIStep s (clearRecording s)
  | tick (s : RecorderState) (h : s.timerActive = true) :
      UIStep s (tickTimer s)

/-- JS truthiness of an optional string value (`null`/`undefined` and the
empty string are falsy). -/
def jsTruthy : Option String → Bool
  | none => false
  | some s => !s.isEmpty

/-- The audio+text prompt template of `searchMusic` (text interpolated). -/
def audioTextPrompt (text : String) : String :=
  "Identify the song based on the audio melody provided AND the following user description: \"" ++
  text ++ "\". \n    The audio is the primary source for melody matching, but use the text for context."

/-- The audio-only prompt of `searchMusic`. -/
def audioOnlyPrompt : String :=
  "Identify this song based on the hummed or recorded melody. Return the most likely matches."

/-- The text-only prompt template of `searchMusic` (text interpolated). -/
def textOnlyPrompt (text : String) : String :=
  "Find songs matching this description: \"" ++ text ++
  "\". If it mentions a movie scene, mood, or vague lyrics, use your knowledge to find the specific track."

/-- The `promptText` selection of `searchMusic`:
`if (audioBase64 && text) … else if (audioBase64) … else …`. -/
def promptText (text : String) (audioBase64 : Option String) : String :=
  if jsTruthy audioBase64 && !text.isEmpty then audioTextPrompt text
  else if jsTruthy audioBase64 then audioOnlyPrompt
  else textOnlyPrompt text

/-- One element of the `parts` array handed to the remote service. -/
inductive Part where
  | text (s : String)
  | inlineData (mimeType : String) (data : String)
deriving DecidableEq, Repr

/-- The `parts` array built by `searchMusic`: the prompt text, plus an
`inlineData` part when `audioBase64` is truthy.  `mimeType` is the
optional explicit argument; the JS parameter default `'audio/webm'`
applies when it is absent. -/
def buildParts (text : String) (audioBase64 : Option String) (mimeType : Option String) :
    List Part :=
  let base := [Part.text (promptText text audioBase64)]
  match audioBase64 with
  | some b => if !b.isEmpty then base ++ [Part.inlineData (mimeType.getD "audio/webm") b] else base
  | none => base

/-- Outcome of the single `ai.models.generateContent` call: either the
call (or anything before reading `response.text`) throws, or it returns
a response whose `text` field is the given optional string. -/
inductive RemoteOutcome where
  | throws
  | succeeds (text : Option String)
deriving DecidableEq, Repr

/-- `!textResponse`: the response text is falsy when absent or empty. -/
def bodyFalsy : Option String → Bool
  | none => true
  | some s => s.isEmpty

/-- The error message `searchMusic` throws from its catch block. -/
def searchFailMsg : String := "Failed to search for music. Please try again."

/-- The `searchMusic` result (`src/services/geminiService.ts`): on a
transport error the catch block rethrows `searchFailMsg`; a falsy
response body returns `[]`; otherwise `JSON.parse` runs — modelled by
the oracle `parse`, `none` meaning a parse throw (again caught and
rethrown as `searchFailMsg`), `some songs` the parsed array. -/
def searchMusic (parse : String → Option (List Song)) (remote : RemoteOutcome) :
    Except String (List Song) :=
  match remote with
  | .throws => .error searchFailMsg
  | .succeeds body =>
    if bodyFalsy body then .ok []
    else
      match parse (body.getD "") with
      | none => .error searchFailMsg
      | some songs => .ok songs

/-- `r.id && r.id.length > 5`: the record keeps its own identifier. -/
def keepsOwnId (r : Song) : Bool := !r.id.isEmpty && r.id.length > 5

/-- Index-passing map used to model successive `crypto.randomUUID()`
calls: the callback is applied with the position of each element. -/
def mapWithIndex (f : Nat → Song → Song) : Nat → List Song → List Song
  | _, [] => []
  | i, r :: rs => f i r :: mapWithIndex f (i + 1) rs

/-- The ID-normalization map of `handleSearch`:
`rawResults.map(r => ({...r, id: r.id && r.id.length > 5 ? r.id : crypto.randomUUID()}))`.
`gen i` models the `crypto.randomUUID()` value drawn at position `i`. -/
def normalizeIds (gen : Nat → String) (rs : List Song) : List Song :=
  mapWithIndex (fun i r => if keepsOwnId r then r else { r with id := gen i }) 0 rs

/-- The `{ base64, mimeType }` value held in the `audioData` state. -/
structure AudioData where
  base64 : String
  mimeType : String
deriving DecidableEq, Repr

/-- The inline validation-error message of `handleSearch`. -/
def validationMsg : String := "Please describe a song or record audio first."

/-- The catch-block fallback message of `handleSearch`. -/
def unexpectedMsg : String := "An unexpected error occurred."

/-- `audioData?.base64 || null`: absent audio data, or a falsy `base64`
string, is passed to `searchMusic` as `null`. -/
def audioB64Arg : Option AudioData → Option String
  | none => none
  | some a => if a.base64.isEmpty then none else some a.base64

/-- `audioData?.mimeType`: `undefined` when no audio data is present (so
the `searchMusic` parameter default applies). -/
def mimeArg : Option AudioData → Option String
  | none => none
  | some a => some a.mimeType

/-- The whitespace class trimmed by JS `String.prototype.trim`
(ASCII/Latin-1 fragment; the trimmed text itself is never used, only
whether it is empty). -/
def jsWhitespace (c : Char) : Bool :=
  c = ' ' || c = '\t' || c = '\n' || c = '\r' ||
  c = Char.ofNat 11 || c = Char.ofNat 12 || c = Char.ofNat 160

/-- `!searchText.trim()`: the text trims to the empty string exactly
when every character is whitespace. -/
def jsTrimIsEmpty (s : String) : Bool := s.toList.all jsWhitespace

/-- The `handleSearch` orchestration of the `App` component: the
validation guard, the awaited `searchMusic` call, ID normalization of
the raw results, and the terminal `setState`.  Returns the terminal
`SearchState` together with the number of remote calls made (0 or 1).
`prev` is the state the validation branch's functional update reads. -/
def handleSearch (gen : Nat → String) (parse : String → Option (List Song))
    (searchText : String) (audioData : Option AudioData) (prev : SearchState)
    (remote : RemoteOutcome) : SearchState × Nat :=
  if jsTrimIsEmpty searchText && audioData.isNone then
    ({ prev with error := some validationMsg }, 0)
  else
    match searchMusic parse remote with
    | .ok rawResults =>
      ({ isLoading := false, error := none, results := normalizeIds gen rawResults }, 1)
    | .error e =>
      ({ isLoading := false,
         error := some (if e.isEmpty then unexpectedMsg else e),
         results := [] }, 1)

/-- `toggleFavorite` from the `App` component: remove every song with the
same identifier when one is present, otherwise append. -/
def toggleFavorite (prev : List Song) (song : Song) : List Song :=
  if prev.any (fun f => f.id == song.id) then
    prev.filter (fun f => f.id != song.id)
  else
    prev ++ [song]

/-- JSON values, for the untyped result of the favorites load. -/
inductive Json where
  | null
  | bool (b : Bool)
  | num (n : Int)
  | str (s : String)
  | arr (elems : List Json)
  | obj (members : List (String × Json))

/-- The favorites initialization of the `App` component:
`const saved = localStorage.getItem('jacareFavorites');
 return saved ? JSON.parse(saved) : [];` inside a try/catch whose catch
returns `[]`.  `parse` models `JSON.parse`, with `none` meaning a parse
throw; the stored value is `none` when the key is absent.  Whatever
value `JSON.parse` yields is returned as-is (the TS cast performs no
validation). -/
def loadFavorites (parse : String → Option Json) (stored : Option String) : Json :=
  match stored with
  | none => Json.arr []
  | some s =>
    if s.isEmpty then Json.arr []
    else
      match parse s with
      | none => Json.arr []
      | some j => j

/-- Sample song with a long (kept) identifier. -/
def songA : Song :=
  { id := "aaaaaa", titulo := "Alpha", artista := "Ann",
    matchType := .texto, confidence := 80, description := none }

/-- Second sample song with a distinct long identifier. -/
def songB : Song :=
  { id := "bbbbbb", titulo := "Beta", artista := "Bob",
    matchType := .melodia, confidence := 60, description := some "hum" }

/-- Sample song whose identifier is too short to keep. -/
def songShort : Song :=
  { id := "ab", titulo := "Gamma", artista := "Cam",
    matchType := .contexto, confidence := 40, description := none }

/-- Stub for `crypto.randomUUID`: a fresh value per draw index. -/
def uuidStub : Nat → String := fun i => if i == 0 then "uuid-zero" else "uuid-one"

/-- Stub JSON parse oracle for the song-array parse: always throws. -/
def parseStub : String → Option (List Song) := fun _ => none

/-- Stub `JSON.parse` oracle agreeing with the real parser on the probe
inputs: `"5"` parses to the JSON number `5`, anything else throws. -/
def parseNum5 : String → Option Json := fun s => if s = "5" then some (Json.num 5) else none

/-- A concrete mid-recording state: status RECORDING, two elapsed
seconds, interval installed, recorder acquired. -/
def midRecording : RecorderState :=
  { status := .recording, timer := 2, timerActive := true, chunks := [], hasRecorder := true }

/-- A concrete finished state. -/
def afterStop : RecorderState :=
  { status := .finished, timer := 7, timerActive := false, chunks := [], hasRecorder := true }

/-! ## Theorems -/

/-- Claim C1, counterexample: the claim says every (operation, state)
pair other than the three listed transitions is a no-op, but applying
`start` (with permission granted) in the Finished state is not a no-op —
it moves the recorder back to Recording, because `startRecording` never
checks the current status. -/
theorem recorderStep_start_from_finished_not_noop :
    recorderStep .start afterStop ≠ afterStop ∧
    (recorderStep .start afterStop).status = .recording := by
  decide

/-- Claim C1 (amended): the step function is total and deterministic,
but only `stop` is guarded by the current state.  `start` (on grant)
transitions every state — Idle, Recording or Finished — to Recording
with a reset timer; `stop` moves Recording (with an acquired recorder)
to Finished and is a no-op from every other state; `reset`
unconditionally moves any state to Idle, zeroing the timer and chunks.
Restricted to the valid (operation, state) pairs this yields exactly
Idle→Recording on start, Recording→Finished on stop and Finished→Idle
on reset. -/
theorem recorderStep_characterization (s : RecorderState) :
    ((recorderStep .start s).status = .recording ∧
     (recorderStep .start s).timer = 0 ∧
     (recorderStep .start s).timerActive = true) ∧
    (s.hasRecorder = true → s.status = .recording →
      recorderStep .stop s = { s with status := .finished, timerActive := false }) ∧
    (¬(s.hasRecorder = true ∧ s.status = .recording) → recorderStep .stop s = s) ∧
    (recorderStep .reset s = { s with status := .idle, timer := 0, chunks := [] }) := by
  refine ⟨⟨rfl, rfl, rfl⟩, ?_, ?_, rfl⟩
  · intro h1 h2
    simp [recorderStep, stopRecording, h1, h2]
  · intro h
    simp only [recorderStep, stopRecording, if_neg h]

/-- Claim C1, witness: the amended characterization at concrete states —
a guarded stop from a mid-recording state, and a stop that is a no-op
from the initial Idle state. -/
theorem recorderStep_characterization_witness :
    recorderStep .stop midRecording =
      { status := .finished, timer := 2, timerActive := false, chunks := [],
        hasRecorder := true } ∧
    recorderStep .stop initialRecorder = initialRecorder :=
  ⟨(recorderStep_characterization midRecording).2.1 rfl rfl,
   (recorderStep_characterization initialRecorder).2.2.1 (by decide)⟩

/-- Claim C6, counterexample: the claim says the tick timer is cancelled
at any transition to Idle via reset, and that no active timer survives a
transition out of Recording; but `clearRecording` never clears the
interval, so applying it to a mid-recording state transitions
Recording→Idle while leaving the interval installed. -/
theorem clearRecording_keeps_timer_active :
    (clearRecording midRecording).status = .idle ∧
    (clearRecording midRecording).timerActive = true := by
  decide

/-- Claim C6 (amended): the tick timer is cancelled exactly at the
Recording→Finished transition performed by `stop`; `reset` performs no
cancellation.  Nevertheless, under the component's UI-guarded events
(`reset` is only reachable from Finished, where `stop` has already
cancelled the interval) the invariant "an active timer implies status
Recording" is preserved by every event, so along reachable executions no
active timer survives a transition out of Recording. -/
theorem tick_cancellation (s s' : RecorderState) :
    (s.status = .recording → s.hasRecorder = true →
      (stopRecording s).timerActive = false) ∧
    ((s.timerActive = true → s.status = .recording) → UIStep s s' →
      (s'.timerActive = true → s'.status = .recording)) := by
  constructor
  · intro h1 h2
    simp [stopRecording, h1, h2]
  · intro hinv hstep
    cases hstep with
    | start h =>
      intro _
      rfl
    | startDenied h =>
      simpa [startRecording] using hinv
    | stop h =>
      by_cases hg : s.hasRecorder = true ∧ s.status = .recording
      · simp [stopRecording, hg]
      · simpa [stopRecording, if_neg hg] using hinv
    | reset h =>
      intro ht
      have hrec : s.status = .recording := hinv ht
      rw [h] at hrec
      cases hrec
    | tick h =>
      simpa [tickTimer] using hinv

/-- Claim C6, witness: the amended theorem at concrete inputs — stop
cancels the interval of a mid-recording state, and the invariant is
carried across a concrete UI start event from the initial state. -/
theorem tick_cancellation_witness :
    (stopRecording midRecording).timerActive = false ∧
    ((startRecording true initialRecorder).timerActive = true →
      (startRecording true initialRecorder).status = .recording) :=
  ⟨(tick_cancellation midRecording midRecording).1 rfl rfl,
   (tick_cancellation initialRecorder (startRecording true initialRecorder)).2
     (by decide) (UIStep.start initialRecorder rfl)⟩

/-- Claim C8: the elapsed-seconds counter is reset to 0 when `start`
succeeds, each interval tick increments it by exactly 1 while the
recorder is Recording, and it is 0 immediately after any reset. -/
theorem timer_semantics (s : RecorderState) :
    (startRecording true s).timer = 0 ∧
    (s.status = .recording → (tickTimer s).timer = s.timer + 1) ∧
    (clearRecording s).timer = 0 :=
  ⟨rfl, fun _ => rfl, rfl⟩

/-- Claim C8, witness: instantiated at a concrete mid-recording state. -/
theorem timer_semantics_witness :
    (startRecording true midRecording).timer = 0 ∧
    (tickTimer midRecording).timer = 2 + 1 ∧
    (clearRecording midRecording).timer = 0 :=
  ⟨(timer_semantics midRecording).1,
   (timer_semantics midRecording).2.1 rfl,
   (timer_semantics midRecording).2.2⟩

/-- Claim C5, counterexample: double toggle is not the identity on every
starting list.  Toggling `songA` twice on `[songA, songB]` removes it
from the front and re-appends it at the end, yielding `[songB, songA]`,
which differs from the original list. -/
theorem toggleFavorite_not_involutive :
    toggleFavorite (toggleFavorite [songA, songB] songA) songA = [songB, songA] ∧
    toggleFavorite (toggleFavorite [songA, songB] songA) songA ≠ [songA, songB] := by
  decide

/-- Claim C5 (amended): a single toggle removes every song with the same
identifier when one is present and otherwise appends the song at the
end, preserving insertion order.  The double toggle returns the original
list exactly when no song in the starting list carries the toggled
song's identifier; when one is present, the double toggle instead
yields the starting list with all identifier matches removed and the
song appended at the end (so it is the identity only up to that
removal/reposition). -/
theorem toggleFavorite_laws (S : List Song) (song : Song) :
    ((∃ f ∈ S, f.id = song.id) →
      toggleFavorite S song = S.filter (fun f => f.id != song.id)) ∧
    ((∀ f ∈ S, f.id ≠ song.id) → toggleFavorite S song = S ++ [song]) ∧
    ((∀ f ∈ S, f.id ≠ song.id) →
      toggleFavorite (toggleFavorite S song) song = S) ∧
    ((∃ f ∈ S, f.id = song.id) →
      toggleFavorite (toggleFavorite S song) song =
        S.filter (fun f => f.id != song.id) ++ [song]) := by
  have hpos : (∃ f ∈ S, f.id = song.id) →
      toggleFavorite S song = S.filter (fun f => f.id != song.id) := by
    intro h
    have hb : (S.any fun f => f.id == song.id) = true := by
      obtain ⟨f, hf, he⟩ := h
      exact List.any_eq_true.mpr ⟨f, hf, by simp [he]⟩
    simp [toggleFavorite, hb]
  have hneg : (∀ f ∈ S, f.id ≠ song.id) → toggleFavorite S song = S ++ [song] := by
    intro h
    have hb : (S.any fun f => f.id == song.id) = false := by
      simp only [List.any_eq_false]
      intro f hf
      simpa using h f hf
    simp [toggleFavorite, hb]
  have hfilter_no : ∀ f ∈ S.filter (fun f => f.id != song.id), f.id ≠ song.id := by
    intro f hf
    have := (List.mem_filter.mp hf).2
    simpa using this
  refine ⟨hpos, hneg, ?_, ?_⟩
  · intro h
    rw [hneg h]
    have hb : ((S ++ [song]).any fun f => f.id == song.id) = true :=
      List.any_eq_true.mpr ⟨song, by simp, by simp⟩
    have hfS : S.filter (fun f => f.id != song.id) = S :=
      List.filter_eq_self.mpr (fun f hf => by simpa using h f hf)
    simp [toggleFavorite, hb, List.filter_append, hfS]
  · intro h
    rw [hpos h]
    have hb : ((S.filter fun f => f.id != song.id).any fun f => f.id == song.id) = false := by
      simp only [List.any_eq_false]
      intro f hf
      simpa using hfilter_no f hf
    simp [toggleFavorite, hb]

/-- Claim C5, witness: the amended laws at concrete lists — double
toggle is the identity when the identifier is absent, and a single
toggle on a list containing the identifier filters it out. -/
theorem toggleFavorite_laws_witness :
    toggleFavorite (toggleFavorite [songB] songA) songA = [songB] ∧
    toggleFavorite [songA, songB] songA =
      List.filter (fun f => f.id != songA.id) [songA, songB] :=
  ⟨(toggleFavorite_laws [songB] songA).2.2.1 (by decide),
   (toggleFavorite_laws [songA, songB] songA).1 ⟨songA, by simp, rfl⟩⟩

/-- The index-passing map preserves length. -/
theorem mapWithIndex_length (f : Nat → Song → Song) :
    ∀ (rs : List Song) (start : Nat), (mapWithIndex f start rs).length = rs.length := by
  intro rs
  induction rs with
  | nil => intro start; rfl
  | cons r rs ih =>
    intro start
    simp [mapWithIndex, ih]

/-- Element `k` of the index-passing map is the callback applied at the
shifted index. -/
theorem mapWithIndex_get (f : Nat → Song → Song) :
    ∀ (rs : List Song) (start k : Nat) (h : k < rs.length)
      (h2 : k < (mapWithIndex f start rs).length),
      (mapWithIndex f start rs).get ⟨k, h2⟩ = f (start + k) (rs.get ⟨k, h⟩) := by
  intro rs
  induction rs with
  | nil =>
    intro start k h h2
    exact absurd h (Nat.not_lt_zero k)
  | cons r rs ih =>
    intro start k h h2
    cases k with
    | zero => simp [mapWithIndex]
    | succ k =>
      have h' : k < rs.length := Nat.lt_of_succ_lt_succ h
      have h2' : k < (mapWithIndex f (start + 1) rs).length := by
        rw [mapWithIndex_length]; exact h'
      have heq : start + 1 + k = start + (k + 1) := by omega
      calc (mapWithIndex f start (r :: rs)).get ⟨k + 1, h2⟩
          = (mapWithIndex f (start + 1) rs).get ⟨k, h2'⟩ := rfl
        _ = f (start + 1 + k) (rs.get ⟨k, h'⟩) := ih (start + 1) k h' h2'
        _ = f (start + (k + 1)) ((r :: rs).get ⟨k + 1, h⟩) := by rw [heq]; rfl

/-- Claim C2: ID normalization preserves the length and order of the
batch and, at every position, keeps the record's identifier exactly when
it is present (non-empty) and longer than 5, leaving every other field
untouched; otherwise it substitutes the freshly drawn identifier for
that position.  `crypto.randomUUID` is modelled by the oracle `gen`
whose draws are pairwise distinct and collide with no incoming
identifier (its uniqueness guarantee); under that model every
substituted identifier differs from every other identifier in the same
batch. -/
theorem normalizeIds_spec (gen : Nat → String) (rs : List Song)
    (hInj : ∀ i, i < rs.length → ∀ j, j < rs.length → i ≠ j → gen i ≠ gen j)
    (hFresh : ∀ i, i < rs.length → ∀ r ∈ rs, gen i ≠ r.id) :
    (normalizeIds gen rs).length = rs.length ∧
    (∀ k (h : k < rs.length) (h2 : k < (normalizeIds gen rs).length),
      (keepsOwnId (rs.get ⟨k, h⟩) = true →
        (normalizeIds gen rs).get ⟨k, h2⟩ = rs.get ⟨k, h⟩) ∧
      (keepsOwnId (rs.get ⟨k, h⟩) = false →
        (normalizeIds gen rs).get ⟨k, h2⟩ = { rs.get ⟨k, h⟩ with id := gen k })) ∧
    (∀ k (hk : k < rs.length) (hk2 : k < (normalizeIds gen rs).length)
       j (hj : j < rs.length) (hj2 : j < (normalizeIds gen rs).length),
      k ≠ j → keepsOwnId (rs.get ⟨k, hk⟩) = false →
      ((normalizeIds gen rs).get ⟨k, hk2⟩).id ≠
        ((normalizeIds gen rs).get ⟨j, hj2⟩).id) := by
  have hget : ∀ k (h : k < rs.length) (h2 : k < (normalizeIds gen rs).length),
      (normalizeIds gen rs).get ⟨k, h2⟩ =
        if keepsOwnId (rs.get ⟨k, h⟩) then rs.get ⟨k, h⟩
        else { rs.get ⟨k, h⟩ with id := gen k } := by
    intro k h h2
    have := mapWithIndex_get
      (fun i r => if keepsOwnId r then r else { r with id := gen i }) rs 0 k h h2
    simpa [normalizeIds] using this
  refine ⟨mapWithIndex_length _ rs 0, ?_, ?_⟩
  · intro k h h2
    constructor
    · intro hk
      rw [hget k h h2, if_pos hk]
    · intro hk
      have hk' : ¬ keepsOwnId (rs.get ⟨k, h⟩) = true := by
        rw [hk]; exact Bool.false_ne_true
      rw [hget k h h2, if_neg hk']
  · intro k hk hk2 j hj hj2 hne hrep
    have hrep' : ¬ keepsOwnId (rs.get ⟨k, hk⟩) = true := by
      rw [hrep]; exact Bool.false_ne_true
    rw [hget k hk hk2, if_neg hrep', hget j hj hj2]
    by_cases hkeep : keepsOwnId (rs.get ⟨j, hj⟩) = true
    · rw [if_pos hkeep]
      exact hFresh k hk (rs.get ⟨j, hj⟩) (rs.get_mem _ _)
    · rw [if_neg hkeep]
      exact hInj k hk j hj hne

/-- Claim C2, witness: normalization of a concrete two-record batch —
the short-identifier record receives the fresh draw for its position,
the long-identifier record is kept verbatim, and the substituted
identifier differs from the kept one. -/
theorem normalizeIds_spec_witness :
    (normalizeIds uuidStub [songShort, songA]).length = 2 ∧
    (normalizeIds uuidStub [songShort, songA]).get ⟨0, by decide⟩ =
      { songShort with id := uuidStub 0 } ∧
    (normalizeIds uuidStub [songShort, songA]).get ⟨1, by decide⟩ = songA ∧
    ((normalizeIds uuidStub [songShort, songA]).get ⟨0, by decide⟩).id ≠
      ((normalizeIds uuidStub [songShort, songA]).get ⟨1, by decide⟩).id :=
  ⟨(normalizeIds_spec uuidStub [songShort, songA] (by decide) (by decide)).1,
   ((normalizeIds_spec uuidStub [songShort, songA] (by decide) (by decide)).2.1
      0 (by decide) (by decide)).2 (by decide),
   ((normalizeIds_spec uuidStub [songShort, songA] (by decide) (by decide)).2.1
      1 (by decide) (by decide)).1 (by decide),
   (normalizeIds_spec uuidStub [songShort, songA] (by decide) (by decide)).2.2
      0 (by decide) (by decide) 1 (by decide) (by decide) (by decide) (by decide)⟩

/-- Claim C4: when the free text is empty or whitespace-only and no
audio payload is present, `handleSearch` sets the validation error and
makes no remote call; whenever either input is present the validation
branch is skipped and the remote service is invoked exactly once. -/
theorem handleSearch_validation (gen : Nat → String) (parse : String → Option (List Song))
    (searchText : String) (audioData : Option AudioData) (prev : SearchState)
    (remote : RemoteOutcome) :
    (jsTrimIsEmpty searchText = true → audioData = none →
      handleSearch gen parse searchText audioData prev remote =
        ({ prev with error := some validationMsg }, 0)) ∧
    (jsTrimIsEmpty searchText = false ∨ audioData ≠ none →
      (handleSearch gen parse searchText audioData prev remote).2 = 1) := by
  constructor
  · intro h1 h2
    simp [handleSearch, h1, h2]
  · intro h
    have hc : (jsTrimIsEmpty searchText && audioData.isNone) = false := by
      rcases h with h | h
      · simp [h]
      · cases audioData with
        | none => exact absurd rfl h
        | some a => simp
    simp only [handleSearch, hc, Bool.false_eq_true, if_false]
    cases searchMusic parse remote <;> rfl

/-- Claim C4, witness: whitespace-only text with no audio yields the
validation error and zero remote calls; non-blank text triggers exactly
one remote call. -/
theorem handleSearch_validation_witness :
    handleSearch uuidStub parseStub " " none
      { isLoading := false, error := none, results := [songA] } RemoteOutcome.throws =
      ({ isLoading := false, error := some validationMsg, results := [songA] }, 0) ∧
    (handleSearch uuidStub parseStub "x" none
      { isLoading := false, error := none, results := [] } RemoteOutcome.throws).2 = 1 :=
  ⟨(handleSearch_validation uuidStub parseStub " " none
      { isLoading := false, error := none, results := [songA] } RemoteOutcome.throws).1
      (by decide) rfl,
   (handleSearch_validation uuidStub parseStub "x" none
      { isLoading := false, error := none, results := [] } RemoteOutcome.throws).2
      (Or.inl (by decide))⟩

/-- Claim C10: on a validation failure `handleSearch` only writes the
error message — the functional update `prev => ({...prev, error})`
leaves the loading flag and the previously displayed results exactly as
they were. -/
theorem handleSearch_validation_frame (gen : Nat → String)
    (parse : String → Option (List Song)) (searchText : String)
    (audioData : Option AudioData) (prev : SearchState) (remote : RemoteOutcome)
    (h1 : jsTrimIsEmpty searchText = true) (h2 : audioData = none) :
    (handleSearch gen parse searchText audioData prev remote).1.isLoading =
      prev.isLoading ∧
    (handleSearch gen parse searchText audioData prev remote).1.results =
      prev.results ∧
    (handleSearch gen parse searchText audioData prev remote).1.error =
      some validationMsg := by
  simp [handleSearch, h1, h2]

/-- Claim C10, witness: a validation failure over a state that is
loading and already shows one result preserves both. -/
theorem handleSearch_validation_frame_witness :
    (handleSearch uuidStub parseStub "" none
      { isLoading := true, error := none, results := [songA] }
      RemoteOutcome.throws).1.isLoading = true ∧
    (handleSearch uuidStub parseStub "" none
      { isLoading := true, error := none, results := [songA] }
      RemoteOutcome.throws).1.results = [songA] :=
  ⟨(handleSearch_validation_frame uuidStub parseStub "" none
      { isLoading := true, error := none, results := [songA] }
      RemoteOutcome.throws rfl rfl).1,
   (handleSearch_validation_frame uuidStub parseStub "" none
      { isLoading := true, error := none, results := [songA] }
      RemoteOutcome.throws rfl rfl).2.1⟩

/-- Claim C3, counterexample: the claim counts an empty response body as
a failure that must surface with a non-null error, but `searchMusic`
returns `[]` for a falsy response text (`if (!textResponse) return []`),
so the orchestrator's terminal state for an empty body is a success with
`error = null` and empty results. -/
theorem handleSearch_emptyBody_counterexample :
    handleSearch uuidStub parseStub "hello" none
      { isLoading := true, error := none, results := [] }
      (RemoteOutcome.succeeds none) =
      ({ isLoading := false, error := none, results := [] }, 1) ∧
    (handleSearch uuidStub parseStub "hello" none
      { isLoading := true, error := none, results := [] }
      (RemoteOutcome.succeeds none)).1.error = none := by
  decide

/-- Claim C3 (amended): past validation, the single remote call
determines one terminal state, all-or-nothing: a transport error or a
response whose body fails to parse as JSON surfaces as the single
user-facing message with `loading=false`, `error` non-null and
`results=[]`; an *empty* response body, however, is treated as a
success — terminal state `loading=false`, `error=null`, `results=[]`;
and a parsed body yields `loading=false`, `error=null` and the full
normalized result list.  Partial results are never returned. -/
theorem handleSearch_terminal (gen : Nat → String) (parse : String → Option (List Song))
    (searchText : String) (audioData : Option AudioData) (prev : SearchState)
    (remote : RemoteOutcome)
    (hv : (jsTrimIsEmpty searchText && audioData.isNone) = false) :
    (remote = .throws →
      handleSearch gen parse searchText audioData prev remote =
        ({ isLoading := false, error := some searchFailMsg, results := [] }, 1)) ∧
    (∀ b, remote = .succeeds (some b) → b.isEmpty = false → parse b = none →
      handleSearch gen parse searchText audioData prev remote =
        ({ isLoading := false, error := some searchFailMsg, results := [] }, 1)) ∧
    (∀ ob, remote = .succeeds ob → bodyFalsy ob = true →
      handleSearch gen parse searchText audioData prev remote =
        ({ isLoading := false, error := none, results := [] }, 1)) ∧
    (∀ b songs, remote = .succeeds (some b) → b.isEmpty = false →
      parse b = some songs →
      handleSearch gen parse searchText audioData prev remote =
        ({ isLoading := false, error := none, results := normalizeIds gen songs }, 1)) := by
  have hmsg : searchFailMsg.isEmpty = false := rfl
  refine ⟨?_, ?_, ?_, ?_⟩
  · intro hr
    subst hr
    simp [handleSearch, hv, searchMusic, hmsg]
  · intro b hr hb hp
    subst hr
    simp [handleSearch, hv, searchMusic, bodyFalsy, hb, hp, hmsg]
  · intro ob hr hb
    subst hr
    simp [handleSearch, hv, searchMusic, hb, normalizeIds, mapWithIndex]
  · intro b songs hr hb hp
    subst hr
    simp [handleSearch, hv, searchMusic, bodyFalsy, hb, hp]

/-- Claim C3, witness: a transport error at concrete inputs yields the
single error message with empty results, and a parsed body yields the
normalized list. -/
theorem handleSearch_terminal_witness :
    handleSearch uuidStub parseStub "x" none
      { isLoading := true, error := none, results := [] } RemoteOutcome.throws =
      ({ isLoading := false, error := some searchFailMsg, results := [] }, 1) ∧
    handleSearch uuidStub (fun _ => some [songA]) "x" none
      { isLoading := true, error := none, results := [] }
      (RemoteOutcome.succeeds (some "[...]")) =
      ({ isLoading := false, error := none,
         results := normalizeIds uuidStub [songA] }, 1) :=
  ⟨(handleSearch_terminal uuidStub parseStub "x" none
      { isLoading := true, error := none, results := [] } RemoteOutcome.throws
      (by decide)).1 rfl,
   (handleSearch_terminal uuidStub (fun _ => some [songA]) "x" none
      { isLoading := true, error := none, results := [] }
      (RemoteOutcome.succeeds (some "[...]")) (by decide)).2.2.2 "[...]" [songA]
      rfl rfl rfl⟩

/-- Claim C7: `searchMusic` constructs exactly one of three mutually
exclusive prompt shapes.  A payload counts as present exactly when its
base64 string is JS-truthy (non-null and non-empty) — the shape the
`audioData?.base64 || null` coercion upstream guarantees.  With a
present payload and non-empty text the combined audio+text prompt is
built; with a present payload and empty text the audio-only prompt (the
scenario-B case); otherwise the text-only prompt.  The `parts` array
carries the audio exactly when the payload is present, and its media
type defaults to `audio/webm` when no explicit type is supplied. -/
theorem searchMusic_prompt_shapes (text : String) (audioBase64 mimeType : Option String) :
    (jsTruthy audioBase64 = true → text ≠ "" →
      promptText text audioBase64 = audioTextPrompt text) ∧
    (jsTruthy audioBase64 = true → text = "" →
      promptText text audioBase64 = audioOnlyPrompt) ∧
    (jsTruthy audioBase64 = false → promptText text audioBase64 = textOnlyPrompt text) ∧
    (∀ b, audioBase64 = some b → b ≠ "" →
      buildParts text audioBase64 mimeType =
        [Part.text (promptText text audioBase64),
         Part.inlineData (mimeType.getD "audio/webm") b]) ∧
    (∀ b, audioBase64 = some b → b ≠ "" → mimeType = none →
      buildParts text audioBase64 mimeType =
        [Part.text (promptText text audioBase64), Part.inlineData "audio/webm" b]) ∧
    (jsTruthy audioBase64 = false →
      buildParts text audioBase64 mimeType = [Part.text (promptText text audioBase64)]) := by
  refine ⟨?_, ?_, ?_, ?_, ?_, ?_⟩
  · intro ha ht
    have ht' : text.isEmpty = false := by
      cases he : text.isEmpty
      · rfl
      · exact absurd ((String.isEmpty_iff text).mp he) ht
    simp [promptText, ha, ht']
  · intro ha ht
    subst ht
    have he : ("" : String).isEmpty = true := rfl
    simp [promptText, ha, he]
  · intro ha
    simp [promptText, ha]
  · intro b hb hbne
    subst hb
    have hbe : b.isEmpty = false := by
      cases he : b.isEmpty
      · rfl
      · exact absurd ((String.isEmpty_iff b).mp he) hbne
    simp [buildParts, hbe]
  · intro b hb hbne hm
    subst hb
    subst hm
    have hbe : b.isEmpty = false := by
      cases he : b.isEmpty
      · rfl
      · exact absurd ((String.isEmpty_iff b).mp he) hbne
    simp [buildParts, hbe, Option.getD]
  · intro ha
    cases audioBase64 with
    | none => rfl
    | some b =>
      have hbe : b.isEmpty = true := by
        have := ha
        simp [jsTruthy] at this
        simpa using this
      simp [buildParts, hbe]

/-- Claim C7, witness: the scenario-B call
`search("", {base64:"AAAA", mimeType:"audio/webm"})` builds the
audio-only prompt with the audio part attached, and an explicit-type-less
payload defaults to `audio/webm`. -/
theorem searchMusic_prompt_shapes_witness :
    promptText "" (some "AAAA") = audioOnlyPrompt ∧
    buildParts "" (some "AAAA") (some "audio/webm") =
      [Part.text audioOnlyPrompt, Part.inlineData "audio/webm" "AAAA"] ∧
    buildParts "x" (some "AAAA") none =
      [Part.text (audioTextPrompt "x"), Part.inlineData "audio/webm" "AAAA"] := by
  refine ⟨(searchMusic_prompt_shapes "" (some "AAAA") none).2.1 rfl rfl, ?_, ?_⟩
  · have h := (searchMusic_prompt_shapes ""
      (some "AAAA") (some "audio/webm")).2.2.2.1 "AAAA" rfl (by decide)
    rw [h, (searchMusic_prompt_shapes "" (some "AAAA") (some "audio/webm")).2.1 rfl rfl]
    rfl
  · have h := (searchMusic_prompt_shapes "x"
      (some "AAAA") none).2.2.2.2.1 "AAAA" rfl (by decide) rfl
    rw [h, (searchMusic_prompt_shapes "x" (some "AAAA") none).1 rfl (by decide)]

/-- Claim C9, counterexample: the claim says every corrupt persisted
value degrades to an empty favorites set, but the load performs no
validation after `JSON.parse` — a stored `"5"` (valid JSON, corrupt as a
favorites list) is returned as the number 5, which is not a list at
all.  `parseNum5` agrees with the browser parser on the probed input. -/
theorem loadFavorites_corrupt_counterexample :
    loadFavorites parseNum5 (some "5") = Json.num 5 ∧
    loadFavorites parseNum5 (some "5") ≠ Json.arr [] :=
  ⟨rfl, fun h => Json.noConfusion h⟩

/-- Claim C9 (amended): the favorites load never fails — it is a total
function of the stored value — and degrades to the empty list when the
key is absent, when the stored string is empty (falsy), and when
`JSON.parse` throws; but a value that parses as JSON is returned without
schema validation, so JSON-parseable corrupt data is not replaced by an
empty list. -/
theorem loadFavorites_spec (parse : String → Option Json) (stored : Option String) :
    (stored = none → loadFavorites parse stored = Json.arr []) ∧
    (∀ s, stored = some s → s.isEmpty = true →
      loadFavorites parse stored = Json.arr []) ∧
    (∀ s, stored = some s → parse s = none →
      loadFavorites parse stored = Json.arr []) ∧
    (∀ s j, stored = some s → s.isEmpty = false → parse s = some j →
      loadFavorites parse stored = j) := by
  refine ⟨?_, ?_, ?_, ?_⟩
  · intro h
    subst h
    rfl
  · intro s h he
    subst h
    simp [loadFavorites, he]
  · intro s h hp
    subst h
    by_cases he : s.isEmpty = true
    · simp [loadFavorites, he]
    · simp [loadFavorites, he, hp]
  · intro s j h he hp
    subst h
    simp [loadFavorites, he, hp]

/-- Claim C9, witness: the degradation cases at concrete stored values —
an absent key and an unparseable string both load as the empty list,
and a parseable value is returned as parsed. -/
theorem loadFavorites_spec_witness :
    loadFavorites parseNum5 none = Json.arr [] ∧
    loadFavorites parseNum5 (some "not json") = Json.arr [] ∧
    loadFavorites parseNum5 (some "5") = Json.num 5 :=
  ⟨(loadFavorites_spec parseNum5 none).1 rfl,
   (loadFavorites_spec parseNum5 (some "not json")).2.2.1 "not json" rfl rfl,
   (loadFavorites_spec parseNum5 (some "5")).2.2.2 "5" (Json.num 5) rfl rfl rfl⟩

end JacareFinder
